import Mathlib

/-!
Verification of the pg_stream CDC input connector.

The development shallowly embeds the Go sources:
- `PgStreamCheckPointer` (SetCheckPoint / GetCheckPoint over a redis
  key-value store) from the checkpointer file;
- the two connector variants found in pg_stream.go: variant A
  (lines 1-255, the one that constructs a `PgStreamCheckPointer` and hands
  it to the replication library) and variant B (lines 257-507, the one
  that delegates acknowledgement to the library through `AckLSN`).

External collaborators (the redis client, the pglogicalstream library)
are modelled by their observable interface: the key-value map, injected
failure flags, and the outcome of `NewPgStream` / `Stop`.
-/

namespace PgStream

/-! ## Checkpoint store (PgStreamCheckPointer) -/

/-- The redis key-value state visible to the checkpointer: a partial map
from keys to stored string values. -/
def Store : Type := String → Option String

/-- Redis SET with no expiry: unconditional overwrite of one key. -/
def redisSet (d : Store) (k v : String) : Store :=
  fun k2 => if k2 = k then some v else d k2

/-- Redis GET as observed through `Result()`: when the store-level read
fails the pair is `("", error)`; on a missing key it is `("", redis.Nil)`;
on a present key it is `(value, nil)`. The boolean injects a store-level
failure of the environment. -/
def redisGet (d : Store) (readFails : Bool) (k : String) :
    String × Option String :=
  if readFails then ("", some "store error")
  else
    match d k with
    | some v => (v, none)
    | none => ("", some "redis: nil")

/-- The deterministic checkpoint key: `fmt.Sprintf("rs_checkpoint_%s", slot)`. -/
def checkpointKey (slot : String) : String := "rs_checkpoint_" ++ slot

/-- State effect of `SetCheckPoint(lnsCheckPoint, replicationSlot)` on a
successful redis SET: write the position under the slot's checkpoint key. -/
def setCheckPointData (d : Store) (lnsCheckPoint slot : String) : Store :=
  redisSet d (checkpointKey slot) lnsCheckPoint

/-- `SetCheckPoint` including the environment's write outcome: on a store
write failure the error is returned and the data is unchanged; otherwise
the key is overwritten and `nil` is returned. -/
def SetCheckPoint (d : Store) (writeFails : Bool) (lnsCheckPoint slot : String) :
    Store × Option String :=
  if writeFails then (d, some "write error")
  else (setCheckPointData d lnsCheckPoint slot, none)

/-- `GetCheckPoint(replicationSlot)`: reads the checkpoint key and discards
the error component of the redis result (`result, _ := ...Get(...).Result()`),
returning only the string. -/
def GetCheckPoint (d : Store) (readFails : Bool) (slot : String) : String :=
  (redisGet d readFails (checkpointKey slot)).1

/-! ## Messages and acknowledgement callbacks -/

/-- A message consumed from the replication library's change channel
(`LrMessageC`): the optional position marker (`Lsn *string`) and the
remaining payload, opaque to the connector. -/
structure StreamMessage where
  lsn : Option String
  payload : String
deriving DecidableEq

/-- A call the connector makes on the replication stream while an
acknowledgement callback runs. -/
inductive AckCall where
  | ackLSN (lsn : String)
deriving DecidableEq

/-- Variant B change-message `AckFn` (pg_stream.go lines 487-495): if the
message's `Lsn` is non-nil it calls `AckLSN(*message.Lsn)`; the error
argument of the callback is never inspected. -/
def changeAckCallsB (m : StreamMessage) (ackErr : Option String) : List AckCall :=
  match m.lsn with
  | some l => [AckCall.ackLSN l]
  | none => []

/-- Variant A change-message `AckFn` (pg_stream.go lines 236-242): the body
is only comments and `return nil`, so no call is made for any message or
signal. -/
def changeAckCallsA (m : StreamMessage) (ackErr : Option String) : List AckCall :=
  []

/-- Snapshot-message `AckFn` (both variants): the body is `return nil`;
no call is made for any signal. -/
def snapshotAckCalls (ackErr : Option String) : List AckCall :=
  []

/-- Effect of one acknowledgement call on the checkpoint data: `AckLSN`
is the acknowledgement that drives a checkpoint write for the slot. -/
def runAckCall (slot : String) (d : Store) (c : AckCall) : Store :=
  match c with
  | AckCall.ackLSN l => setCheckPointData d l slot

/-- Effect of a list of acknowledgement calls on the checkpoint data. -/
def runAckCalls (slot : String) (d : Store) (cs : List AckCall) : Store :=
  cs.foldl (runAckCall slot) d

/-! ## The Read multiplexer -/

/-- Which of the three select cases completes a `Read` call: a snapshot
channel value, a change channel value, or the context being done. A closed
channel's receive also completes, yielding the zero value. -/
inductive ReadEvent where
  | snapshot (m : StreamMessage)
  | change (m : StreamMessage)
  | cancelled
deriving DecidableEq

/-- The observable result of one `Read` call: an envelope with the
snapshot no-op ack, an envelope with the change ack, or a bare return of
`(nil, nil, err)`; the boolean records whether `Stop()` was called during
this `Read`. -/
inductive ReadOutcome where
  | envelopeSnapshot (m : StreamMessage)
  | envelopeChange (m : StreamMessage)
  | errorReturn (err : Option String) (stopCalled : Bool)
deriving DecidableEq

/-- Variant A `Read` (pg_stream.go lines 225-248): either channel value is
wrapped into an envelope; when the context is done the select case has an
empty body and the function falls through to
`return nil, nil, errors.New("action timed out")` without calling `Stop`. -/
def readA : ReadEvent → ReadOutcome
  | ReadEvent.snapshot m => ReadOutcome.envelopeSnapshot m
  | ReadEvent.change m => ReadOutcome.envelopeChange m
  | ReadEvent.cancelled =>
      ReadOutcome.errorReturn (some "action timed out") false

/-- Variant B `Read` (pg_stream.go lines 465-499): either channel value is
marshalled and wrapped into an envelope; when the context is done it
returns `nil, nil, p.pglogicalStream.Stop()`, so `Stop` is called on every
cancelled `Read` and its result — nil on success — is the returned error. -/
def readB (stopResult : Option String) : ReadEvent → ReadOutcome
  | ReadEvent.snapshot m => ReadOutcome.envelopeSnapshot m
  | ReadEvent.change m => ReadOutcome.envelopeChange m
  | ReadEvent.cancelled => ReadOutcome.errorReturn stopResult true

/-! ## Connector lifecycle -/

/-- The connector instance state the Go code actually keeps: whether
`p.pglogicalStream` is set, plus a count of replication sessions
successfully started through it (instrumentation of `NewPgStream`
successes; the struct itself holds no such counter and no lifecycle
state). -/
structure Connector where
  streamSet : Bool
  sessionsStarted : Nat
deriving DecidableEq

/-- Outcome of a `Connect` call: a normal `nil` return, a `panic(err)`
aborting the process, or an error returned to the caller. -/
inductive ConnectOutcome where
  | ok
  | panicked (e : String)
  | errReturned (e : String)
deriving DecidableEq

/-- Variant B `Connect` (pg_stream.go lines 443-463): it always calls
`NewPgStream`; on error it executes `panic(err)`; on success it overwrites
`p.pglogicalStream` with the new session and returns `nil`. No state is
consulted before connecting. `newStreamResult` is the error produced by
the external `NewPgStream`, `none` meaning success. -/
def ConnectGoB (c : Connector) (newStreamResult : Option String) :
    Connector × ConnectOutcome :=
  match newStreamResult with
  | some e => (c, ConnectOutcome.panicked e)
  | none =>
      ({ streamSet := true, sessionsStarted := c.sessionsStarted + 1 },
        ConnectOutcome.ok)

/-- Variant A `Connect` (pg_stream.go lines 187-223): a redis URI parse
failure or a checkpointer construction failure is returned as an error;
a `NewPgStream` failure is `panic(err)`; success stores the session. The
three `Option String` arguments are those external outcomes, `none`
meaning success. -/
def ConnectGoA (c : Connector) (uriParseErr ckptErr newStreamResult : Option String) :
    Connector × ConnectOutcome :=
  match uriParseErr with
  | some e => (c, ConnectOutcome.errReturned e)
  | none =>
      match ckptErr with
      | some e => (c, ConnectOutcome.errReturned e)
      | none =>
          match newStreamResult with
          | some e => (c, ConnectOutcome.panicked e)
          | none =>
              ({ streamSet := true, sessionsStarted := c.sessionsStarted + 1 },
                ConnectOutcome.ok)

/-- `Close` (both variants, pg_stream.go lines 250-255 and 501-506): if the
stream handle is set it returns `Stop()`'s result, else `nil`. It does not
clear the handle and records no closed flag, so the connector state is
returned unchanged. -/
def CloseGo (c : Connector) (stopResult : Option String) :
    Connector × Option String :=
  if c.streamSet then (c, stopResult) else (c, none)

/-- The full `Read` entry of variant B including the pointer dereference:
`p.pglogicalStream.SnapshotMessageC()` faults when the handle was never
set; otherwise the select proceeds as in `readB`. There is no check of any
closed state. -/
inductive ReadFull where
  | outcome (o : ReadOutcome)
  | nilDeref
deriving DecidableEq

/-- Variant B `Read` threaded through the connector state: the only state
consulted is whether the stream handle is set. -/
def ReadGoB (c : Connector) (stopResult : Option String) (e : ReadEvent) :
    ReadFull :=
  if c.streamSet then ReadFull.outcome (readB stopResult e) else ReadFull.nilDeref

/-! ## Claim theorems -/

/-- Claim C1 (code evaluated at the failing input): when the external
session establishment fails — an unreachable host — both connector
variants execute `panic(err)`, aborting the process, instead of returning
a typed fatal error to the caller. -/
theorem C1_connect_panics_on_session_failure :
    (ConnectGoB ⟨false, 0⟩ (some "unreachable host")).2 =
      ConnectOutcome.panicked "unreachable host" ∧
    (ConnectGoA ⟨false, 0⟩ none none (some "unreachable host")).2 =
      ConnectOutcome.panicked "unreachable host" := by
  decide

/-- Claim C2 (code evaluated at the failing input): when the cancellation
token fires before either channel yields, variant A returns the error
"action timed out" without calling `Stop`, and variant B calls `Stop`
within the very `Read` call — hence again on every later cancelled call —
returning its result rather than a distinguished end-of-stream value. -/
theorem C2_cancellation_returns_error_not_eos :
    readA ReadEvent.cancelled =
      ReadOutcome.errorReturn (some "action timed out") false ∧
    readB none ReadEvent.cancelled = ReadOutcome.errorReturn none true := by
  decide

/-- Claim C3, counterexample: in variant A, invoking the change-event
acknowledgement with a success signal on an event that carries the
position marker "16/B374D848" makes zero acknowledgement calls, not
exactly one carrying the marker. -/
theorem C3_counterexample_variantA_ack_noop :
    changeAckCallsA ⟨some "16/B374D848", "payload"⟩ none = [] ∧
    (changeAckCallsA ⟨some "16/B374D848", "payload"⟩ none).length ≠ 1 := by
  decide

/-- Claim C3, amended: in variant B — the variant that performs
acknowledgement itself — invoking the change-event callback causes exactly
one `AckLSN` call carrying the event's position marker when the marker is
present and zero calls when it is absent, whatever the signal; in variant
A the change-event callback is a no-op making zero calls. -/
theorem C3_change_ack_call_counts (m : StreamMessage) (s : Option String) :
    (∀ l, m.lsn = some l → changeAckCallsB m s = [AckCall.ackLSN l]) ∧
    (m.lsn = none → changeAckCallsB m s = []) ∧
    changeAckCallsA m s = [] := by
  refine ⟨?_, ?_, rfl⟩
  · intro l hl
    simp [changeAckCallsB, hl]
  · intro hl
    simp [changeAckCallsB, hl]

/-- Witness for C3's amended theorem at a concrete marked event. -/
theorem C3_change_ack_call_counts_witness :
    changeAckCallsB ⟨some "16/B374D848", "payload"⟩ none =
      [AckCall.ackLSN "16/B374D848"] :=
  (C3_change_ack_call_counts ⟨some "16/B374D848", "payload"⟩ none).1
    "16/B374D848" rfl

/-- Claim C4: the snapshot-event acknowledgement is a no-op — across any
sequence of invocations with any signals, it makes no acknowledgement
calls and leaves every checkpoint store state unchanged. -/
theorem C4_snapshot_ack_never_writes (slot : String) (d : Store)
    (signals : List (Option String)) :
    signals.foldl (fun st s => runAckCalls slot st (snapshotAckCalls s)) d = d := by
  induction signals generalizing d with
  | nil => rfl
  | cons s ss ih =>
      rw [List.foldl_cons]
      exact ih _

/-- Claim C5, counterexample: starting from an idle connector, a first
successful `Connect` moves it to streaming; a second `Connect` is not
rejected — it returns success and starts a second replication session. -/
theorem C5_counterexample_second_connect_accepted :
    (ConnectGoB (ConnectGoB ⟨false, 0⟩ none).1 none).2 = ConnectOutcome.ok ∧
    (ConnectGoB (ConnectGoB ⟨false, 0⟩ none).1 none).1.sessionsStarted = 2 := by
  decide

/-- Claim C5, amended: `Connect` consults no lifecycle state — from any
connector state, a successful session establishment returns `ok`, starts
one more session and overwrites the stored handle, so no at-most-one-
session invariant is enforced. -/
theorem C5_connect_ignores_state (c : Connector) :
    ConnectGoB c none =
      ({ streamSet := true, sessionsStarted := c.sessionsStarted + 1 },
        ConnectOutcome.ok) := rfl

/-- Claim C6, counterexample: after `Close` completes successfully on a
connected instance (state unchanged, stream handle still set), a
subsequent `Read` whose select is completed by a channel receive — as a
closed channel's zero-value receive is — yields an envelope with no
error, rather than failing with a defined error. -/
theorem C6_counterexample_read_after_close_yields :
    CloseGo ⟨true, 1⟩ none = (⟨true, 1⟩, none) ∧
    ReadGoB ⟨true, 1⟩ none (ReadEvent.snapshot ⟨none, ""⟩) =
      ReadFull.outcome (ReadOutcome.envelopeSnapshot ⟨none, ""⟩) := by
  decide

/-- Claim C6, amended: `Close` returns the connector state unchanged — it
records no closed flag and keeps the stream handle — so a later `Read`
behaves exactly as before the close: channel receives still yield
envelopes and only the cancellation path returns an error. -/
theorem C6_close_leaves_read_unchanged (c : Connector) (r s : Option String)
    (e : ReadEvent) :
    (CloseGo c r).1 = c ∧ ReadGoB (CloseGo c r).1 s e = ReadGoB c s e := by
  have h : (CloseGo c r).1 = c := by
    unfold CloseGo
    split <;> rfl
  exact ⟨h, by rw [h]⟩

/-- Claim C7: writing a position for a slot and then reading that slot's
checkpoint returns the same position, and both operations address the one
key obtained by prefixing the slot name with "rs_checkpoint_". -/
theorem C7_checkpoint_roundtrip (d : Store) (slot p1 : String) :
    GetCheckPoint (setCheckPointData d p1 slot) false slot = p1 ∧
    checkpointKey slot = "rs_checkpoint_" ++ slot := by
  constructor
  · simp [GetCheckPoint, redisGet, setCheckPointData, redisSet]
  · rfl

/-- Claim C8: after any finite sequence of writes to a slot ending in
`pn`, reading the checkpoint returns `pn` — an unconditional overwrite
with no monotonicity check, whatever the earlier values were. -/
theorem C8_last_write_wins (d : Store) (slot : String) (ps : List String)
    (pn : String) :
    GetCheckPoint
      ((ps ++ [pn]).foldl (fun st p => setCheckPointData st p slot) d)
      false slot = pn := by
  induction ps generalizing d with
  | nil => simp [GetCheckPoint, redisGet, setCheckPointData, redisSet]
  | cons q qs ih =>
      rw [List.cons_append, List.foldl_cons]
      exact ih _

/-- Claim C9: `GetCheckPoint` returns the stored position when one exists
and the empty string otherwise, and a store-level read error is likewise
collapsed into the empty string — the error component of the redis result
is discarded, so no call surfaces an error and a store failure is
indistinguishable from an absent checkpoint. -/
theorem C9_get_collapses_errors (d : Store) (slot : String) :
    (∀ v, d (checkpointKey slot) = some v → GetCheckPoint d false slot = v) ∧
    (d (checkpointKey slot) = none → GetCheckPoint d false slot = "") ∧
    GetCheckPoint d true slot = "" := by
  refine ⟨?_, ?_, rfl⟩
  · intro v hv
    simp [GetCheckPoint, redisGet, hv]
  · intro hv
    simp [GetCheckPoint, redisGet, hv]

/-- Witness for C9 at a concrete store: a present key reads back, an
absent key reads as empty, and a failing store also reads as empty. -/
theorem C9_get_collapses_errors_witness :
    GetCheckPoint
      (fun k => if k = "rs_checkpoint_orders" then some "16/B374D848" else none)
      false "orders" = "16/B374D848" ∧
    GetCheckPoint (fun _ => none) false "orders" = "" ∧
    GetCheckPoint (fun _ => none) true "orders" = "" := by
  refine ⟨?_, ?_, ?_⟩
  · exact (C9_get_collapses_errors
      (fun k => if k = "rs_checkpoint_orders" then some "16/B374D848" else none)
      "orders").1 "16/B374D848" (by decide)
  · exact (C9_get_collapses_errors (fun _ => none) "orders").2.1 rfl
  · exact (C9_get_collapses_errors (fun _ => none) "orders").2.2

/-- Claim C10: for a change event carrying a position marker, the variant B
acknowledgement callback's effect is independent of the signal passed to
it — the error argument is ignored, and a failure signal acknowledges the
LSN exactly as a success signal does. -/
theorem C10_ack_ignores_signal (l payload : String) (s1 s2 : Option String) :
    changeAckCallsB ⟨some l, payload⟩ s1 = changeAckCallsB ⟨some l, payload⟩ s2 ∧
    changeAckCallsB ⟨some l, payload⟩ (some "processing failed") =
      [AckCall.ackLSN l] :=
  ⟨rfl, rfl⟩

end PgStream
